import Mathlib

/-!
Verification of the Mule-Mart marketplace REST API handlers.

This file gives a shallow embedding, in Lean, of the request handlers of the
Mule-Mart repository (files `app/api/items_routes.py`, `app/api/users_routes.py`,
`app/api/chat_routes.py`, `app/api/auth_routes.py` and
`app/services/storage_service.py`), together with theorems about them.

Modelling conventions:
- Database tables are lists of rows (structures); the ORM `query.get` /
  `filter_by` calls become `List.find?` / `List.filter`.
- Python `str.strip`, `str.lower`, `str.startswith`, SQL `ILIKE` substring
  matching and single-character `str.replace` are modelled by executable
  functions over the character list of a `String`, so that all definitions
  reduce inside the kernel.
- The external object-storage bucket is a list of object keys; the
  `head_object` existence check becomes list membership.  Transport-level
  storage failures (which raise in the source) are outside the model.
- `Item.semantic_search` and `generate_embedding` live in modules of the
  repository whose code is not part of the handler files; they are taken as
  function parameters (an oracle returning the relevant item ids, and an
  opaque-free embedding function), which is enough for every claim below.
- Python `float(...)` parsing of a price string is likewise a parameter
  `parsePrice : String → Option Int` (`none` models `ValueError`).
-/

namespace MuleMart

/-- Python `str.strip`, modelled on the character list of the string. -/
def pyStrip (s : String) : String :=
  String.mk (((s.data.dropWhile Char.isWhitespace).reverse.dropWhile Char.isWhitespace).reverse)

/-- Python `str.lower` (ASCII case folding), used to model SQL `ILIKE`. -/
def lowerStr (s : String) : String :=
  String.mk (s.data.map Char.toLower)

/-- Whether the first list is an initial segment of the second. -/
def listStarts : List Char → List Char → Bool
  | [], _ => true
  | _ :: _, [] => false
  | a :: as, b :: bs => a == b && listStarts as bs

/-- Python `str.startswith pre` for `s`. -/
def strStarts (s pre : String) : Bool :=
  listStarts pre.data s.data

/-- Whether `needle` occurs as a contiguous sublist of the second list. -/
def listHasSub (needle : List Char) : List Char → Bool
  | [] => needle.isEmpty
  | c :: rest => listStarts needle (c :: rest) || listHasSub needle rest

/-- Substring containment on strings, modelling SQL `ILIKE` with wildcards on
both sides (the handlers always interpolate the query between two wildcards). -/
def containsSub (hay needle : String) : Bool :=
  listHasSub needle.data hay.data

/-- Python `str.replace c ""` for a single character pattern: every occurrence
of the character is removed. -/
def removeChar (c : Char) (s : String) : String :=
  String.mk (s.data.filter (fun d => d != c))

/-- Insert an element into a list in front of the first element it is
`le`-before; auxiliary for `sortByLe`. -/
def insertLe {α : Type} (le : α → α → Bool) (a : α) : List α → List α
  | [] => [a]
  | b :: bs => if le a b then a :: b :: bs else b :: insertLe le a bs

/-- A stable insertion sort, modelling the SQL `ORDER BY` clauses of the
handlers. -/
def sortByLe {α : Type} (le : α → α → Bool) : List α → List α
  | [] => []
  | a :: as => insertLe le a (sortByLe le as)

/-! ## Data model

Rows of the relational store, as used by the handler files.  The `Item`
columns follow the fields the handlers read and write: both a soft-deleted
flag `isDeleted` and an active flag `isActive` exist and are filtered on by
different endpoints. -/

/-- A row of the `items` table. -/
structure Item where
  id : Nat
  title : String
  description : Option String
  category : Option String
  size : Option String
  sellerType : Option String
  condition : Option String
  price : Int
  imageUrl : Option String
  isActive : Bool
  isDeleted : Bool
  embedding : String
  createdAt : Nat
  sellerId : Nat
deriving DecidableEq

/-- A row of the `users` table (the columns the embedded handlers touch). -/
structure User where
  id : Nat
  email : String
  firstName : String
  lastName : String
  profileImage : Option String
  isVerified : Bool
deriving DecidableEq

/-- A row of the `chat` table: one directed message. -/
structure Chat where
  id : Nat
  senderId : Nat
  receiverId : Nat
  content : String
  timestamp : Nat
  isRead : Bool
deriving DecidableEq

/-- A row of the `recently_viewed` association table. -/
structure RVRow where
  userId : Nat
  itemId : Nat
  viewedAt : Nat
deriving DecidableEq

/-- `Item.query.get(item_id)`: primary-key lookup. -/
def Item.queryGet (db : List Item) (itemId : Nat) : Option Item :=
  db.find? (fun i => i.id == itemId)

/-- `User.query.get(user_id)`: primary-key lookup. -/
def User.queryGet (db : List User) (userId : Nat) : Option User :=
  db.find? (fun u => u.id == userId)

/-- The `.offset((page - 1) * per_page).limit(per_page)` pagination applied by
every list endpoint. -/
def paginate {α : Type} (l : List α) (page perPage : Int) : List α :=
  (l.drop ((page - 1) * perPage).toNat).take perPage.toNat

/-- The `pages` value echoed by the handlers: `(total + per_page - 1) // per_page`. -/
def pagesFor (total : Nat) (perPage : Int) : Int :=
  ((total : Int) + perPage - 1) / perPage

/-- The payload of a paginated item listing: the selected rows plus the echoed
`pagination` object. -/
structure Paged where
  status : Nat
  items : List Item
  page : Int
  perPage : Int
  total : Nat
  pages : Int
deriving DecidableEq

/-! ## Items routes (`app/api/items_routes.py`) -/

/-- The optional search narrowing of `list_items` (lines 90-96): when a search
term is present, `Item.semantic_search` is consulted; a non-empty result
restricts the query to the returned ids, an empty result forces an empty
result set (`db.false()`). -/
def applySearch (semanticSearch : String → List Nat) (search : String)
    (l : List Item) : List Item :=
  if search ≠ "" then
    let relevantIds := semanticSearch search
    if relevantIds.isEmpty then [] else l.filter (fun i => relevantIds.contains i.id)
  else l

/-- An optional `filter_by(column=value)` equality narrowing, applied only when
the request supplied a non-empty value. -/
def applyEq (v : String) (get : Item → Option String) (l : List Item) : List Item :=
  if v ≠ "" then l.filter (fun i => get i == some v) else l

/-- The query built by `list_items` before sorting and pagination:
`is_active=True`, then search, category, seller type and condition filters. -/
def listItemsQuery (db : List Item) (semanticSearch : String → List Nat)
    (search category sellerType condition : String) : List Item :=
  applyEq condition (fun i => i.condition)
    (applyEq sellerType (fun i => i.sellerType)
      (applyEq category (fun i => i.category)
        (applySearch semanticSearch search
          (db.filter (fun i => i.isActive)))))

/-- The `ORDER BY` clause of `list_items` (lines 110-118). -/
def sortItems (sortBy : String) (l : List Item) : List Item :=
  if sortBy = "oldest" then sortByLe (fun a b => decide (a.createdAt ≤ b.createdAt)) l
  else if sortBy = "price_low" then sortByLe (fun a b => decide (a.price ≤ b.price)) l
  else if sortBy = "price_high" then sortByLe (fun a b => decide (b.price ≤ a.price)) l
  else sortByLe (fun a b => decide (b.createdAt ≤ a.createdAt)) l

/-- `GET /items` (`list_items`): strips the filter parameters, normalizes
`page` to at least 1 and resets an out-of-range `per_page` to the default 20,
builds the filtered query, counts it, sorts and paginates it, and echoes the
pagination values. -/
def listItems (db : List Item) (semanticSearch : String → List Nat)
    (search category sellerType condition sortBy : String)
    (pageReq perPageReq : Int) : Paged :=
  let search := pyStrip search
  let category := pyStrip category
  let sellerType := pyStrip sellerType
  let condition := pyStrip condition
  let page := if pageReq < 1 then 1 else pageReq
  let perPage := if perPageReq < 1 ∨ perPageReq > 100 then 20 else perPageReq
  let q := listItemsQuery db semanticSearch search category sellerType condition
  let total := q.length
  let items := paginate (sortItems sortBy q) page perPage
  { status := 200, items := items, page := page, perPage := perPage,
    total := total, pages := pagesFor total perPage }

/-- `GET /items/autocomplete`: strips the query, resets an out-of-range limit
to the default 8, answers `[]` for an empty query, and otherwise returns the
newest active items whose title contains the query case-insensitively. -/
def autocomplete (db : List Item) (q : String) (limitReq : Int) : List Item :=
  let query := pyStrip q
  let lim := if limitReq < 1 ∨ limitReq > 50 then 8 else limitReq
  if query = "" then []
  else
    let found := (db.filter (fun i => i.isActive)).filter
      (fun i => containsSub (lowerStr i.title) (lowerStr query))
    (sortByLe (fun a b => decide (b.createdAt ≤ a.createdAt)) found).take lim.toNat

/-- Whether a `recently_viewed` row is the one for the given user and item. -/
def rvMatches (u i : Nat) (r : RVRow) : Bool :=
  r.userId == u && r.itemId == i

/-- Set `viewed_at` on the first matching `recently_viewed` row, as the
handler does to the row returned by `.first()`. -/
def updateFirstRV (u i now : Nat) : List RVRow → List RVRow
  | [] => []
  | r :: rs =>
    if rvMatches u i r then { r with viewedAt := now } :: rs
    else r :: updateFirstRV u i now rs

/-- `GET /items/<id>` (`get_item`): 404 when the item is absent or inactive;
otherwise, for an authenticated viewer, upsert the recently-viewed row (update
the timestamp of an existing row, else insert one).  Returns the status code
and the `recently_viewed` table after the request. -/
def getItemView (db : List Item) (rv : List RVRow) (viewer : Option Nat)
    (itemId now : Nat) : Nat × List RVRow :=
  match Item.queryGet db itemId with
  | none => (404, rv)
  | some item =>
    if !item.isActive then (404, rv)
    else
      match viewer with
      | none => (200, rv)
      | some u =>
        if (rv.filter (rvMatches u item.id)).isEmpty then
          (200, rv ++ [⟨u, item.id, now⟩])
        else
          (200, updateFirstRV u item.id now rv)

/-- The number of `recently_viewed` rows for a (user, item) pair. -/
def rvCount (rv : List RVRow) (u i : Nat) : Nat :=
  (rv.filter (rvMatches u i)).length

/-- Run a sequence of `get_item` requests (viewer, item id, clock value)
against the `recently_viewed` table. -/
def applyViews (db : List Item) (calls : List (Option Nat × Nat × Nat))
    (rv : List RVRow) : List RVRow :=
  calls.foldl (fun s c => (getItemView db s c.1 c.2.1 c.2.2).2) rv

/-- `POST /items/<id>/favorites` (`add_favorite`): 404 when the item is absent
or inactive; append the association only when it is not already present.
Returns the status code and the favorites association table. -/
def addFavorite (db : List Item) (favs : List (Nat × Nat)) (userId itemId : Nat) :
    Nat × List (Nat × Nat) :=
  match Item.queryGet db itemId with
  | none => (404, favs)
  | some item =>
    if !item.isActive then (404, favs)
    else if (userId, item.id) ∈ favs then (200, favs)
    else (200, favs ++ [(userId, item.id)])

/-- `DELETE /items/<id>/favorites` (`remove_favorite`): 404 only when no item
row with that id exists; remove the association rows when present, otherwise
change nothing; 200 either way. -/
def removeFavorite (db : List Item) (favs : List (Nat × Nat)) (userId itemId : Nat) :
    Nat × List (Nat × Nat) :=
  match Item.queryGet db itemId with
  | none => (404, favs)
  | some item =>
    if (userId, item.id) ∈ favs then
      (200, favs.filter (fun p => decide (p ≠ (userId, item.id))))
    else (200, favs)

/-- The number of favorite association rows for a (user, item) pair. -/
def favCount (favs : List (Nat × Nat)) (u i : Nat) : Nat :=
  (favs.filter (fun p => decide (p = (u, i)))).length

/-- The request body of `PUT /items/<id>`: each field is present or absent;
`image` is present exactly when the request carried a file part, and its inner
value is the result of `save_uploaded_file` (`none` for a rejected file). -/
structure UpdateItemData where
  title : Option String
  description : Option String
  category : Option String
  size : Option String
  sellerType : Option String
  condition : Option String
  price : Option String
  isActive : Option Bool
  image : Option (Option String)
deriving DecidableEq

/-- A request body carrying no field at all. -/
def emptyUpdate : UpdateItemData :=
  ⟨none, none, none, none, none, none, none, none, none⟩

/-- Python `value.strip() or None`, used for the nullable text columns. -/
def orNone (s : String) : Option String :=
  if pyStrip s = "" then none else some (pyStrip s)

/-- Replace the row with the given primary key. -/
def setItemById (db : List Item) (itemId : Nat) (newItem : Item) : List Item :=
  db.map (fun i => if i.id == itemId then newItem else i)

/-- `PUT /items/<id>` (`update_item`): 404 when the row is absent, 403 when the
requester is not the seller; otherwise apply the submitted fields in source
order with their validation (empty title, unparsable or negative price, and a
rejected image file each abort with 400 and no committed change), re-derive
the embedding, and commit.  Returns the status code and the items table. -/
def updateItem (db : List Item) (curUserId itemId : Nat) (d : UpdateItemData)
    (parsePrice : String → Option Int) (genEmbedding : String → String) :
    Nat × List Item :=
  match Item.queryGet db itemId with
  | none => (404, db)
  | some item =>
    if item.sellerId ≠ curUserId then (403, db)
    else
      let step1 : Option Item :=
        match d.title with
        | none => some item
        | some t => if pyStrip t = "" then none else some { item with title := pyStrip t }
      match step1 with
      | none => (400, db)
      | some i1 =>
        let i2 := match d.description with
          | none => i1
          | some s => { i1 with description := orNone s }
        let i3 := match d.category with
          | none => i2
          | some s => { i2 with category := orNone s }
        let i4 := match d.size with
          | none => i3
          | some s => { i3 with size := orNone s }
        let i5 := match d.sellerType with
          | none => i4
          | some s => { i4 with sellerType := orNone s }
        let i6 := match d.condition with
          | none => i5
          | some s => { i5 with condition := orNone s }
        let stepP : Option Item :=
          match d.price with
          | none => some i6
          | some ps =>
            match parsePrice (pyStrip (removeChar ',' (removeChar '$' ps))) with
            | none => none
            | some p => if p < 0 then none else some { i6 with price := p }
        match stepP with
        | none => (400, db)
        | some i7 =>
          let i8 := match d.isActive with
            | none => i7
            | some b => { i7 with isActive := b }
          let stepI : Option Item :=
            match d.image with
            | none => some i8
            | some (some url) => some { i8 with imageUrl := some url }
            | some none => none
          match stepI with
          | none => (400, db)
          | some i9 =>
            let newEmbedding := genEmbedding (i9.title ++ " " ++ i9.description.getD "")
            (200, setItemById db itemId { i9 with embedding := newEmbedding })

/-! ## Storage service (`app/services/storage_service.py`) -/

/-- The fixed folder for profile images. -/
def PROFILE_IMAGES_FOLDER : String := "profile_images"

/-- The `file_exists` HEAD-equivalent check against the bucket contents; a
404 from the store is the `false` result.  Other transport failures raise in
the source and are outside this model. -/
def file_exists (bucket : List String) (filename : String) : Bool :=
  bucket.contains filename

/-- `validate_profile_image_upload`: require the `profile_images/` path
prefix, difference from the current profile image, and existence in the
bucket; the result pairs the verdict with the error message. -/
def validate_profile_image_upload (bucket : List String)
    (newProfileImage : String) (oldProfileImage : Option String) :
    Bool × Option String :=
  if !(strStarts newProfileImage (PROFILE_IMAGES_FOLDER ++ "/")) then
    (false, some ("Invalid profile image path: `" ++ newProfileImage ++ "`"))
  else if some newProfileImage == oldProfileImage then
    (false, some ("New profile image `" ++ newProfileImage
      ++ "` must be different from current profile image"))
  else if !(file_exists bucket newProfileImage) then
    (false, some ("New profile image file `" ++ newProfileImage ++ "` does not exist"))
  else (true, none)

/-! ## Users routes (`app/api/users_routes.py`) -/

/-- `GET /users/<id>/listings` (`get_user_listings`): 404 when the user is
absent; otherwise `page` is lower-bounded by 1, `per_page` is clamped to
`[1,100]`, and the query keeps the active, non-deleted items of that seller,
newest first. -/
def getUserListings (users : List User) (db : List Item) (userId : Nat)
    (pageReq perPageReq : Int) : Paged :=
  match User.queryGet users userId with
  | none => { status := 404, items := [], page := 0, perPage := 0, total := 0, pages := 0 }
  | some _ =>
    let page := max pageReq 1
    let perPage := min (max perPageReq 1) 100
    let q := db.filter (fun i => i.sellerId == userId && i.isActive && !i.isDeleted)
    let total := q.length
    let items := paginate (sortByLe (fun a b => decide (b.createdAt ≤ a.createdAt)) q) page perPage
    { status := 200, items := items, page := page, perPage := perPage,
      total := total, pages := pagesFor total perPage }

/-- The `current_user.favorites` relationship: the items associated to the
user through the favorites table. -/
def favoriteItems (db : List Item) (favs : List (Nat × Nat)) (userId : Nat) : List Item :=
  db.filter (fun i => favs.contains (userId, i.id))

/-- `GET /users/me/favorites` (`get_my_favorites`): the favorites of the
current user with `is_deleted=False`, newest first, paginated. -/
def getMyFavorites (db : List Item) (favs : List (Nat × Nat)) (userId : Nat)
    (pageReq perPageReq : Int) : Paged :=
  let page := max pageReq 1
  let perPage := min (max perPageReq 1) 100
  let q := (favoriteItems db favs userId).filter (fun i => !i.isDeleted)
  let total := q.length
  let items := paginate (sortByLe (fun a b => decide (b.createdAt ≤ a.createdAt)) q) page perPage
  { status := 200, items := items, page := page, perPage := perPage,
    total := total, pages := pagesFor total perPage }

/-- The outcome of `PUT /users/me`: the status code, the committed user row,
and the storage keys for which a deletion was attempted. -/
structure ProfileUpdateResult where
  status : Nat
  user : User
  deletions : List String
deriving DecidableEq

/-- `PUT /users/me` (`update_current_user`): validate the stripped name fields
(required, at most 150 characters); when a non-empty uploaded image filename
is submitted, run `validate_profile_image_upload` and answer 400 on failure
with nothing changed and no deletion; on success commit the new names (and
image, when submitted), then best-effort delete the previous image object. -/
def updateCurrentUser (bucket : List String) (user : User)
    (firstName lastName uploadedImageFilename : String) : ProfileUpdateResult :=
  let first := pyStrip firstName
  let last := pyStrip lastName
  let fname := pyStrip uploadedImageFilename
  if first = "" ∨ first.length > 150 ∨ last = "" ∨ last.length > 150 then
    ⟨400, user, []⟩
  else if fname ≠ "" then
    let v := validate_profile_image_upload bucket fname user.profileImage
    if !v.1 then ⟨400, user, []⟩
    else
      let oldProfileImage := user.profileImage
      let user1 : User := { user with profileImage := some fname, firstName := first, lastName := last }
      match oldProfileImage with
      | some old => ⟨200, user1, [old]⟩
      | none => ⟨200, user1, []⟩
  else ⟨200, { user with firstName := first, lastName := last }, []⟩

/-! ## Chat routes (`app/api/chat_routes.py`) -/

/-- Whether a message is an unread message from `senderId` to `receiverId`
(the `filter_by(sender_id=..., receiver_id=..., is_read=False)` predicate). -/
def unreadFrom (senderId receiverId : Nat) (m : Chat) : Bool :=
  m.senderId == senderId && m.receiverId == receiverId && !m.isRead

/-- The per-counterpart unread count used by `get_conversations`. -/
def unreadCount (msgs : List Chat) (senderId receiverId : Nat) : Nat :=
  (msgs.filter (unreadFrom senderId receiverId)).length

/-- The bulk `update({"is_read": True})` applied by `get_conversation` to the
unread messages from the counterpart to the current user. -/
def markConversationRead (msgs : List Chat) (senderId receiverId : Nat) : List Chat :=
  msgs.map (fun m => if unreadFrom senderId receiverId m then { m with isRead := true } else m)

/-- Whether a message belongs to the conversation between two users. -/
def betweenUsers (a b : Nat) (m : Chat) : Bool :=
  (m.senderId == a && m.receiverId == b) || (m.senderId == b && m.receiverId == a)

/-- The outcome of `GET /chat/<id>/messages`: the status code, the message
table after the handler commits, and the returned page of messages. -/
structure ConversationResult where
  status : Nat
  msgs : List Chat
  pageMsgs : List Chat
  page : Int
  perPage : Int
  total : Nat
  pages : Int
deriving DecidableEq

/-- `GET /chat/<id>/messages` (`get_conversation`): 404 when the counterpart
is absent; otherwise paginate the chronological conversation, then mark every
unread message from the counterpart to the current user as read. -/
def getConversation (users : List User) (msgs : List Chat) (curId otherId : Nat)
    (pageReq perPageReq : Int) : ConversationResult :=
  match User.queryGet users otherId with
  | none => ⟨404, msgs, [], 0, 0, 0, 0⟩
  | some _ =>
    let page := max pageReq 1
    let perPage := min (max perPageReq 1) 100
    let conv := msgs.filter (betweenUsers curId otherId)
    let total := conv.length
    let pageMsgs := paginate (sortByLe (fun a b => decide (a.timestamp ≤ b.timestamp)) conv) page perPage
    ⟨200, markConversationRead msgs otherId curId, pageMsgs, page, perPage,
      total, pagesFor total perPage⟩

/-- `POST /chat/<id>/messages` (`send_message`): 400 on messaging oneself,
404 on an absent recipient, 400 on empty stripped content or content longer
than 5000 characters; otherwise insert exactly one row (with the stripped
content) and answer 201. -/
def sendMessage (users : List User) (msgs : List Chat) (curId recipientId : Nat)
    (content : String) (newId now : Nat) : Nat × List Chat :=
  if recipientId == curId then (400, msgs)
  else
    match User.queryGet users recipientId with
    | none => (404, msgs)
    | some _ =>
      let c := pyStrip content
      if c = "" then (400, msgs)
      else if c.length > 5000 then (400, msgs)
      else (201, msgs ++ [⟨newId, curId, recipientId, c, now, false⟩])

/-! ## Auth routes (`app/api/auth_routes.py`) -/

/-- `POST /auth/forgot-password` (`api_forgot_password`).  The service call
`generate_password_reset(email)` lives in `app/services/auth_service.py`;
modelled from the spec: it reports whether an account with the email exists
(issuing a reset token when it does), passed here as `accountExists`.  The
handler only logs a failure and answers the same success envelope either
way. -/
def apiForgotPassword (email : String) (accountExists : Bool) : Nat × String :=
  let success := accountExists
  let _ := success
  let _ := pyStrip (lowerStr email)
  (200, "Password reset instructions sent")

/-- `POST /auth/resend-verification` (`api_resend_verification`): 400 on an
empty stripped email; otherwise call the mail service (modelled from the spec
as depending on `accountExists`, whose outcome the handler ignores) and answer
the same success envelope either way. -/
def apiResendVerification (email : String) (accountExists : Bool) : Nat × String :=
  let e := pyStrip email
  let _ := accountExists
  if e = "" then (400, "Email cannot be empty")
  else (200, "If an account exists with `" ++ e ++ "`, a verification email has been sent.")

/-- The `min(max(per_page, 1), 100)` clamp that the spec ascribes to every
list endpoint; stated from the words of the spec for comparison with the
handlers. -/
def clampPerPageSpec (pp : Int) : Int := min (max pp 1) 100

/-! ## Sample rows, used to instantiate the theorems on concrete inputs -/

/-- A soft-deleted but still active item. -/
def sampleItemDel : Item := ⟨1, "jacket", none, none, none, none, none, 5, none, true, true, "", 0, 7⟩

/-- An inactive but not soft-deleted item, sold by user 7. -/
def sampleItemInactive : Item := ⟨2, "lamp", none, none, none, none, none, 5, none, false, false, "", 0, 7⟩

/-- An active, not soft-deleted item, sold by user 7. -/
def sampleItemActive : Item := ⟨3, "chair", none, none, none, none, none, 5, none, true, false, "", 0, 7⟩

/-- A sample user with no profile image. -/
def sampleUserA : User := ⟨1, "a@mule.mart", "Ann", "Ariel", none, true⟩

/-- A sample user with a stored profile image. -/
def sampleUserB : User := ⟨2, "b@mule.mart", "Bo", "Barnes", some "profile_images/old.png", true⟩

/-- A string of `n` letters, for the message length boundary. -/
def longContent (n : Nat) : String := String.mk (List.replicate n 'a')

/-! ## Helper lemmas -/

theorem insertLe_perm {α : Type} (le : α → α → Bool) (a : α) (l : List α) :
    (insertLe le a l).Perm (a :: l) := by
  induction l with
  | nil => exact List.Perm.refl _
  | cons b bs ih =>
    unfold insertLe
    split
    · exact List.Perm.refl _
    · exact (List.Perm.cons b ih).trans (List.Perm.swap a b bs)

theorem sortByLe_perm {α : Type} (le : α → α → Bool) (l : List α) :
    (sortByLe le l).Perm l := by
  induction l with
  | nil => exact List.Perm.refl _
  | cons a as ih => exact (insertLe_perm le a (sortByLe le as)).trans (List.Perm.cons a ih)

theorem mem_sortByLe {α : Type} {le : α → α → Bool} {l : List α} {x : α} :
    x ∈ sortByLe le l ↔ x ∈ l :=
  (sortByLe_perm le l).mem_iff

theorem mem_paginate {α : Type} {l : List α} {p pp : Int} {x : α}
    (h : x ∈ paginate l p pp) : x ∈ l :=
  List.drop_subset _ _ (List.take_subset _ _ h)

theorem applySearch_subset (sem : String → List Nat) (s : String) (l : List Item) :
    applySearch sem s l ⊆ l := by
  unfold applySearch
  split
  · dsimp only
    split
    · exact List.nil_subset _
    · exact (List.filter_sublist _).subset
  · exact fun _ h => h

theorem applyEq_subset (v : String) (get : Item → Option String) (l : List Item) :
    applyEq v get l ⊆ l := by
  unfold applyEq
  split
  · exact (List.filter_sublist _).subset
  · exact fun _ h => h

theorem mem_listItemsQuery_active {db : List Item} {sem : String → List Nat}
    {s c st cond : String} {x : Item}
    (h : x ∈ listItemsQuery db sem s c st cond) : x.isActive = true := by
  unfold listItemsQuery at h
  have h2 := applyEq_subset _ _ _ h
  have h3 := applyEq_subset _ _ _ h2
  have h4 := applyEq_subset _ _ _ h3
  have h5 := applySearch_subset _ _ _ h4
  exact (List.mem_filter.mp h5).2

theorem mem_sortItems {sb : String} {l : List Item} {x : Item} :
    x ∈ sortItems sb l ↔ x ∈ l := by
  unfold sortItems
  split_ifs <;> exact mem_sortByLe

/-! ## C1: pagination normalization -/

/-- C1 counterexample: `list_items` does not clamp `per_page` to `[1,100]`.
For a requested `per_page` of 0 the clamp of the claim gives 1, but the
handler echoes the default 20, which also violates
`per_page_returned ≤ requested_per_page_clamped`. -/
theorem listItems_perPage_not_clamped :
    (listItems [] (fun _ => []) "" "" "" "" "newest" 1 0).perPage = 20 ∧
    clampPerPageSpec 0 = 1 ∧
    ¬((listItems [] (fun _ => []) "" "" "" "" "newest" 1 0).perPage ≤ clampPerPageSpec 0) := by
  decide

/-- C1 (amended): `list_items` echoes the requested `per_page` when it lies in
`[1,100]` and the default 20 otherwise (so the echoed value is always in
`[1,100]` and agrees with the clamp exactly on in-range requests), and its
page is at least 1; `get_user_listings` does clamp `per_page` to `[1,100]`
and lower-bounds its page by 1. -/
theorem pagination_normalization :
    ∀ (db : List Item) (sem : String → List Nat) (s c st cond sb : String)
      (pageReq perPageReq : Int) (users : List User) (udb : List Item)
      (uid : Nat) (upage upp : Int),
    ((listItems db sem s c st cond sb pageReq perPageReq).perPage
        = (if perPageReq < 1 ∨ perPageReq > 100 then 20 else perPageReq)) ∧
    1 ≤ (listItems db sem s c st cond sb pageReq perPageReq).perPage ∧
    (listItems db sem s c st cond sb pageReq perPageReq).perPage ≤ 100 ∧
    (1 ≤ perPageReq ∧ perPageReq ≤ 100 →
      (listItems db sem s c st cond sb pageReq perPageReq).perPage
        = clampPerPageSpec perPageReq) ∧
    1 ≤ (listItems db sem s c st cond sb pageReq perPageReq).page ∧
    ((User.queryGet users uid).isSome = true →
      (getUserListings users udb uid upage upp).perPage = clampPerPageSpec upp ∧
      1 ≤ (getUserListings users udb uid upage upp).perPage ∧
      (getUserListings users udb uid upage upp).perPage ≤ 100 ∧
      1 ≤ (getUserListings users udb uid upage upp).page) := by
  intro db sem s c st cond sb pageReq perPageReq users udb uid upage upp
  have hli : (listItems db sem s c st cond sb pageReq perPageReq).perPage
      = (if perPageReq < 1 ∨ perPageReq > 100 then 20 else perPageReq) := by
    simp only [listItems]
  have hpg : (listItems db sem s c st cond sb pageReq perPageReq).page
      = (if pageReq < 1 then 1 else pageReq) := by
    simp only [listItems]
  refine ⟨hli, ?_, ?_, ?_, ?_, ?_⟩
  · rw [hli]; split_ifs <;> omega
  · rw [hli]; split_ifs <;> omega
  · intro hrange
    rw [hli, clampPerPageSpec]
    split_ifs <;> omega
  · rw [hpg]; split_ifs <;> omega
  · intro hsome
    obtain ⟨u, hu⟩ := Option.isSome_iff_exists.mp hsome
    have hup : (getUserListings users udb uid upage upp).perPage = min (max upp 1) 100 := by
      simp only [getUserListings, hu]
    have hupg : (getUserListings users udb uid upage upp).page = max upage 1 := by
      simp only [getUserListings, hu]
    refine ⟨by rw [hup, clampPerPageSpec], ?_, ?_, ?_⟩
    · rw [hup]; omega
    · rw [hup]; omega
    · rw [hupg]; omega

/-- C1 witness: the amended statement instantiated on a request with
`per_page` 250 (out of range) against `list_items` and the user-listings
endpoint, and a request with `page` 0. -/
theorem pagination_normalization_witness :
    (listItems [] (fun _ => []) "" "" "" "" "newest" 0 250).perPage = 20 ∧
    1 ≤ (listItems [] (fun _ => []) "" "" "" "" "newest" 0 250).page ∧
    (getUserListings [sampleUserA] [] 1 0 250).perPage = clampPerPageSpec 250 := by
  obtain ⟨h1, _, _, _, h5, h6⟩ :=
    pagination_normalization [] (fun _ => []) "" "" "" "" "newest" 0 250 [sampleUserA] [] 1 0 250
  refine ⟨?_, h5, (h6 (by decide)).1⟩
  rw [h1]; decide

/-! ## C2: visibility of soft-deleted and inactive items -/

/-- C2 counterexample: a soft-deleted but still active item appears in
`list_items` and `autocomplete` results (they filter only on `is_active`),
an inactive but not soft-deleted item appears in the favorites results (they
filter only on `is_deleted`), and an inactive item is not fetchable through
`get_item` even by its owner (the handler answers 404 on `not item.is_active`
regardless of the viewer). -/
theorem visibility_counterexample :
    sampleItemDel.isDeleted = true ∧ sampleItemDel.isActive = true ∧
    sampleItemDel ∈ (listItems [sampleItemDel] (fun _ => []) "" "" "" "" "newest" 1 20).items ∧
    sampleItemDel ∈ autocomplete [sampleItemDel] "jack" 8 ∧
    sampleItemInactive.isActive = false ∧ sampleItemInactive.isDeleted = false ∧
    sampleItemInactive ∈ (getMyFavorites [sampleItemInactive] [(9, 2)] 9 1 20).items ∧
    sampleItemInactive.sellerId = 7 ∧
    (getItemView [sampleItemInactive] [] (some 7) 2 0).1 = 404 := by
  decide

/-- C2 (amended): items whose active flag is false never appear in
`list_items` or `autocomplete` results (regardless of the soft-deleted flag),
items whose soft-deleted flag is set never appear in the favorites results
(regardless of the active flag), user listings exclude both, and any item row,
inactive or soft-deleted included, remains addressable by primary key by its
owner through `update_item` (which answers 200, not 404); the `get_item`
endpoint itself answers 404 for inactive items even to the owner. -/
theorem visibility_filters :
    ∀ (db : List Item) (sem : String → List Nat) (s c st cond sb : String)
      (p pp : Int) (adb : List Item) (aq : String) (alim : Int)
      (fdb : List Item) (favs : List (Nat × Nat)) (fuid : Nat) (fp fpp : Int)
      (users : List User) (udb : List Item) (uuid : Nat) (up upp : Int)
      (mdb : List Item) (mid cur : Nat) (parsePrice : String → Option Int)
      (genEmbedding : String → String),
    (∀ x ∈ (listItems db sem s c st cond sb p pp).items, x.isActive = true) ∧
    (∀ x ∈ autocomplete adb aq alim, x.isActive = true) ∧
    (∀ x ∈ (getMyFavorites fdb favs fuid fp fpp).items, x.isDeleted = false) ∧
    (∀ x ∈ (getUserListings users udb uuid up upp).items,
      x.isActive = true ∧ x.isDeleted = false) ∧
    (∀ item : Item, Item.queryGet mdb mid = some item → item.sellerId = cur →
      (updateItem mdb cur mid emptyUpdate parsePrice genEmbedding).1 = 200) := by
  intro db sem s c st cond sb p pp adb aq alim fdb favs fuid fp fpp users udb
    uuid up upp mdb mid cur parsePrice genEmbedding
  refine ⟨?_, ?_, ?_, ?_, ?_⟩
  · intro x hx
    simp only [listItems] at hx
    exact mem_listItemsQuery_active (mem_sortItems.mp (mem_paginate hx))
  · intro x hx
    unfold autocomplete at hx
    dsimp only at hx
    by_cases hq0 : pyStrip aq = ""
    · rw [if_pos hq0] at hx
      simp at hx
    · rw [if_neg hq0] at hx
      have h1 := List.take_subset _ _ hx
      have h2 := mem_sortByLe.mp h1
      exact (List.mem_filter.mp (List.mem_filter.mp h2).1).2
  · intro x hx
    simp only [getMyFavorites] at hx
    have h1 := mem_sortByLe.mp (mem_paginate hx)
    have h2 := (List.mem_filter.mp h1).2
    simpa using h2
  · intro x hx
    cases hq : User.queryGet users uuid with
    | none => simp only [getUserListings, hq] at hx; simp at hx
    | some u =>
      simp only [getUserListings, hq] at hx
      have h1 := mem_sortByLe.mp (mem_paginate hx)
      have h2 := (List.mem_filter.mp h1).2
      simp only [Bool.and_eq_true, Bool.not_eq_true'] at h2
      exact ⟨h2.1.2, h2.2⟩
  · intro item hfind hown
    unfold updateItem
    rw [hfind]
    simp [hown, emptyUpdate]

/-- C2 witness: the amended statement instantiated on a one-item table: the
active item appears in `list_items` and is indeed active, and its owner can
address the row through `update_item`. -/
theorem visibility_filters_witness :
    sampleItemActive.isActive = true ∧
    (updateItem [sampleItemActive] 7 3 emptyUpdate (fun _ => none) (fun t => t)).1 = 200 := by
  obtain ⟨h1, _, _, _, h5⟩ :=
    visibility_filters [sampleItemActive] (fun _ => []) "" "" "" "" "newest" 1 20
      [] "" 8 [] [] 9 1 20 [] [] 9 1 20 [sampleItemActive] 3 7 (fun _ => none) (fun t => t)
  exact ⟨h1 sampleItemActive (by decide), h5 sampleItemActive (by decide) (by decide)⟩

/-! ## C3: non-owner update is rejected without change -/

/-- C3: for every existing item and every authenticated user other than its
seller, `update_item` answers 403 and leaves the items table unchanged, for
any request body. -/
theorem updateItem_nonowner :
    ∀ (db : List Item) (cur itemId : Nat) (d : UpdateItemData)
      (parsePrice : String → Option Int) (genEmbedding : String → String)
      (item : Item),
    Item.queryGet db itemId = some item → item.sellerId ≠ cur →
    updateItem db cur itemId d parsePrice genEmbedding = (403, db) := by
  intro db cur itemId d parsePrice genEmbedding item hfind hne
  unfold updateItem
  rw [hfind]
  simp [hne]

/-- C3 witness: user 8 attempts to update item 3 owned by user 7. -/
theorem updateItem_nonowner_witness :
    updateItem [sampleItemActive] 8 3 emptyUpdate (fun _ => none) (fun t => t)
      = (403, [sampleItemActive]) :=
  updateItem_nonowner [sampleItemActive] 8 3 emptyUpdate (fun _ => none) (fun t => t)
    sampleItemActive (by decide) (by decide)

/-! ## C4: failed profile-image validation aborts the update -/

/-- C4: when the submitted uploaded image filename fails
`validate_profile_image_upload` against the current profile image and the
bucket, `update_current_user` answers 400, leaves the user row (and in
particular `profile_image`) unchanged, and attempts no deletion. -/
theorem updateCurrentUser_invalid_image :
    ∀ (bucket : List String) (user : User) (fn ln fname : String),
    pyStrip fname ≠ "" →
    (validate_profile_image_upload bucket (pyStrip fname) user.profileImage).1 = false →
    updateCurrentUser bucket user fn ln fname = ⟨400, user, []⟩ := by
  intro bucket user fn ln fname h1 h2
  unfold updateCurrentUser
  dsimp only
  split
  · rfl
  · simp [h1, h2]

/-- C4 witness: user B submits a filename outside the `profile_images/`
folder, so validation fails; the response is 400 with the user row unchanged
and no deletion attempted. -/
theorem updateCurrentUser_invalid_image_witness :
    updateCurrentUser [] sampleUserB "Bo" "Barnes" "bad.png" = ⟨400, sampleUserB, []⟩ :=
  updateCurrentUser_invalid_image [] sampleUserB "Bo" "Barnes" "bad.png"
    (by decide) (by decide)

/-! ## C5: send_message validation -/

theorem dropWhile_ws_replicate (n : Nat) :
    (List.replicate n 'a').dropWhile Char.isWhitespace = List.replicate n 'a' := by
  cases n with
  | zero => rfl
  | succ m =>
    rw [List.replicate_succ, List.dropWhile_cons]
    simp

theorem pyStrip_longContent (n : Nat) : pyStrip (longContent n) = longContent n := by
  unfold pyStrip longContent
  simp [dropWhile_ws_replicate, List.reverse_replicate]

theorem longContent_length (n : Nat) : (longContent n).length = n := by
  simp [longContent, String.length]

/-- C5 counterexample: with an absent recipient and empty content the handler
answers 404, not 400, because the recipient-existence check precedes the
content checks; this refutes the claim that 400 is returned exactly when the
self-message, empty-content or over-length condition holds. -/
theorem sendMessage_missing_recipient_counterexample :
    pyStrip "" = "" ∧
    (sendMessage [sampleUserA] [] 1 2 "" 7 7).1 = 404 ∧
    ¬(sendMessage [sampleUserA] [] 1 2 "" 7 7).1 = 400 := by
  decide

/-- C5 (amended): `send_message` answers 400 when the recipient equals the
sender; otherwise 404 when no user with the recipient id exists; otherwise 400
when the stripped content is empty or longer than 5000 characters (so a
content of exactly 5000 characters passes, 5001 is rejected); otherwise it
inserts exactly one message row, carrying the stripped content, and
answers 201. -/
theorem sendMessage_spec :
    ∀ (users : List User) (msgs : List Chat) (cur rid : Nat) (content : String)
      (newId now : Nat),
    (rid = cur → sendMessage users msgs cur rid content newId now = (400, msgs)) ∧
    (rid ≠ cur → User.queryGet users rid = none →
      sendMessage users msgs cur rid content newId now = (404, msgs)) ∧
    (rid ≠ cur → (User.queryGet users rid).isSome = true → pyStrip content = "" →
      sendMessage users msgs cur rid content newId now = (400, msgs)) ∧
    (rid ≠ cur → (User.queryGet users rid).isSome = true → pyStrip content ≠ "" →
      5000 < (pyStrip content).length →
      sendMessage users msgs cur rid content newId now = (400, msgs)) ∧
    (rid ≠ cur → (User.queryGet users rid).isSome = true → pyStrip content ≠ "" →
      (pyStrip content).length ≤ 5000 →
      sendMessage users msgs cur rid content newId now
        = (201, msgs ++ [⟨newId, cur, rid, pyStrip content, now, false⟩])) := by
  intro users msgs cur rid content newId now
  refine ⟨?_, ?_, ?_, ?_, ?_⟩
  · intro h
    subst h
    simp [sendMessage]
  · intro hne hnone
    have hb : (rid == cur) = false := by simp [hne]
    simp [sendMessage, hb, hnone]
  · intro hne hsome hc
    obtain ⟨u, hu⟩ := Option.isSome_iff_exists.mp hsome
    have hb : (rid == cur) = false := by simp [hne]
    simp [sendMessage, hb, hu, hc]
  · intro hne hsome hc hlen
    obtain ⟨u, hu⟩ := Option.isSome_iff_exists.mp hsome
    have hb : (rid == cur) = false := by simp [hne]
    simp [sendMessage, hb, hu, hc, hlen]
  · intro hne hsome hc hlen
    obtain ⟨u, hu⟩ := Option.isSome_iff_exists.mp hsome
    have hb : (rid == cur) = false := by simp [hne]
    have hngt : ¬((pyStrip content).length > 5000) := by omega
    simp [sendMessage, hb, hu, hc, hngt]

/-- C5 witness: a 5000-character message from user 1 to user 2 is accepted
and inserts one row; a 5001-character one is rejected with 400. -/
theorem sendMessage_spec_witness :
    sendMessage [sampleUserA, sampleUserB] [] 1 2 (longContent 5000) 7 9
      = (201, [⟨7, 1, 2, longContent 5000, 9, false⟩]) ∧
    sendMessage [sampleUserA, sampleUserB] [] 1 2 (longContent 5001) 7 9 = (400, []) := by
  have hne : (2 : Nat) ≠ 1 := by decide
  have hsome : (User.queryGet [sampleUserA, sampleUserB] 2).isSome = true := by decide
  constructor
  · have h := (sendMessage_spec [sampleUserA, sampleUserB] [] 1 2 (longContent 5000) 7 9).2.2.2.2
    rw [pyStrip_longContent] at h
    have hne2 : longContent 5000 ≠ "" := by
      intro hh
      have hl := congrArg String.length hh
      rw [longContent_length] at hl
      exact absurd hl (by decide)
    have hr := h hne hsome hne2 (by rw [longContent_length])
    simpa using hr
  · have h := (sendMessage_spec [sampleUserA, sampleUserB] [] 1 2 (longContent 5001) 7 9).2.2.2.1
    rw [pyStrip_longContent] at h
    have hne2 : longContent 5001 ≠ "" := by
      intro hh
      have hl := congrArg String.length hh
      rw [longContent_length] at hl
      exact absurd hl (by decide)
    exact h hne hsome hne2 (by rw [longContent_length]; omega)

/-! ## C6: favorite add and remove are idempotent -/

theorem favCount_eq_zero_iff (favs : List (Nat × Nat)) (u i : Nat) :
    favCount favs u i = 0 ↔ (u, i) ∉ favs := by
  constructor
  · intro h hm
    have := List.length_eq_zero.mp h
    have hmem : (u, i) ∈ favs.filter (fun p => decide (p = (u, i))) :=
      List.mem_filter.mpr ⟨hm, by simp⟩
    rw [favCount] at h
    rw [List.length_eq_zero.mp h] at hmem
    simp at hmem
  · intro hm
    rw [favCount, List.length_eq_zero]
    rw [List.filter_eq_nil_iff]
    intro a ha
    simp only [decide_eq_true_eq]
    intro hEq
    exact hm (hEq ▸ ha)

theorem favCount_append_self (favs : List (Nat × Nat)) (u i : Nat) :
    favCount (favs ++ [(u, i)]) u i = favCount favs u i + 1 := by
  simp [favCount, List.filter_append]

theorem one_le_favCount_of_mem {favs : List (Nat × Nat)} {u i : Nat}
    (h : (u, i) ∈ favs) : 1 ≤ favCount favs u i := by
  by_contra hc
  have h0 : favCount favs u i = 0 := by omega
  exact (favCount_eq_zero_iff favs u i).mp h0 h

/-- C6: for every active item, adding a favorite twice in succession leaves
exactly one association row for that user and item (each call answering 200),
and removing a favorite that is not present changes nothing and still answers
200.  (The hypothesis `favCount favs u item.id ≤ 1` states that the starting
table holds no duplicate association, which single-request execution
maintains.) -/
theorem favorite_idempotent :
    ∀ (db : List Item) (favs : List (Nat × Nat)) (u iid : Nat) (item : Item),
    Item.queryGet db iid = some item → item.isActive = true →
    favCount favs u item.id ≤ 1 →
    ((addFavorite db favs u iid).1 = 200 ∧
     (addFavorite db (addFavorite db favs u iid).2 u iid).1 = 200 ∧
     favCount (addFavorite db (addFavorite db favs u iid).2 u iid).2 u item.id = 1) ∧
    (favCount favs u item.id = 0 → removeFavorite db favs u iid = (200, favs)) := by
  intro db favs u iid item hfind hact hinv
  have hGoal : ∀ fv : List (Nat × Nat),
      addFavorite db fv u iid
        = if (u, item.id) ∈ fv then (200, fv) else (200, fv ++ [(u, item.id)]) := by
    intro fv
    unfold addFavorite
    rw [hfind]
    simp [hact]
  constructor
  · by_cases hm : (u, item.id) ∈ favs
    · rw [hGoal favs, if_pos hm]
      rw [hGoal favs, if_pos hm]
      refine ⟨rfl, rfl, ?_⟩
      exact Nat.le_antisymm hinv (one_le_favCount_of_mem hm)
    · rw [hGoal favs, if_neg hm]
      have hm2 : (u, item.id) ∈ favs ++ [(u, item.id)] := by simp
      rw [hGoal (favs ++ [(u, item.id)]), if_pos hm2]
      refine ⟨rfl, rfl, ?_⟩
      rw [favCount_append_self, (favCount_eq_zero_iff favs u item.id).mpr hm]
  · intro h0
    have hm := (favCount_eq_zero_iff favs u item.id).mp h0
    unfold removeFavorite
    rw [hfind]
    dsimp only
    rw [if_neg hm]

/-- C6 witness: adding item 3 twice for user 4 starting from an empty
favorites table leaves exactly one row, and removing it while absent is a
successful no-op. -/
theorem favorite_idempotent_witness :
    favCount (addFavorite [sampleItemActive]
        (addFavorite [sampleItemActive] [] 4 3).2 4 3).2 4 sampleItemActive.id = 1 ∧
    removeFavorite [sampleItemActive] [] 4 3 = (200, []) := by
  obtain ⟨⟨_, _, h3⟩, h4⟩ :=
    favorite_idempotent [sampleItemActive] [] 4 3 sampleItemActive
      (by decide) (by decide) (by decide)
  exact ⟨h3, h4 (by decide)⟩

/-! ## C7: recently-viewed is an upsert -/

theorem rvCount_updateFirstRV (u i t : Nat) (rv : List RVRow) (a b : Nat) :
    rvCount (updateFirstRV u i t rv) a b = rvCount rv a b := by
  induction rv with
  | nil => rfl
  | cons r rs ih =>
    unfold updateFirstRV
    split
    · simp only [rvCount, List.filter_cons]
      have hProj : rvMatches a b { r with viewedAt := t } = rvMatches a b r := rfl
      rw [hProj]
      split <;> simp [rvCount]
    · simp only [rvCount, List.filter_cons] at ih ⊢
      split <;> simp [ih]

theorem length_updateFirstRV (u i t : Nat) (rv : List RVRow) :
    (updateFirstRV u i t rv).length = rv.length := by
  induction rv with
  | nil => rfl
  | cons r rs ih =>
    unfold updateFirstRV
    split <;> simp [ih]

theorem rvCount_append_single (rv : List RVRow) (r : RVRow) (a b : Nat) :
    rvCount (rv ++ [r]) a b = rvCount rv a b + (if rvMatches a b r then 1 else 0) := by
  simp only [rvCount, List.filter_append, List.length_append]
  split <;> simp [List.filter_cons, *]

theorem rvCount_getItemView_le (db : List Item) (rv : List RVRow) (viewer : Option Nat)
    (iid now a b : Nat) (h : rvCount rv a b ≤ 1) :
    rvCount (getItemView db rv viewer iid now).2 a b ≤ 1 := by
  unfold getItemView
  cases hq : Item.queryGet db iid with
  | none => exact h
  | some item =>
    dsimp only
    split
    · exact h
    · cases viewer with
      | none => exact h
      | some u =>
        dsimp only
        split
        · rename_i hEmpty
          rw [rvCount_append_single]
          by_cases hm : rvMatches a b ⟨u, item.id, now⟩ = true
          · have hab : u = a ∧ item.id = b := by simpa [rvMatches] using hm
            obtain ⟨h1, h2⟩ := hab
            subst h1
            subst h2
            have h0 : rvCount rv u item.id = 0 := by
              have hNil := List.isEmpty_iff.mp hEmpty
              simp [rvCount, hNil]
            simp [h0, hm]
          · simp only [hm, Bool.false_eq_true, if_false]
            omega
        · rw [rvCount_updateFirstRV]
          exact h

/-- C7: from a `recently_viewed` table holding at most one row for a
(user, item) pair, any sequence of `get_item` requests keeps at most one row
for that pair; and a view of an item that already has a row for the viewer
only rewrites the first such row's timestamp, leaving the number of rows
unchanged. -/
theorem recentlyViewed_upsert :
    ∀ (db : List Item) (calls : List (Option Nat × Nat × Nat)) (rv : List RVRow)
      (u i : Nat),
    (rvCount rv u i ≤ 1 → rvCount (applyViews db calls rv) u i ≤ 1) ∧
    (∀ (item : Item) (iid now : Nat),
      Item.queryGet db iid = some item → item.isActive = true →
      (rv.filter (rvMatches u item.id)).isEmpty = false →
      (getItemView db rv (some u) iid now).2 = updateFirstRV u item.id now rv ∧
      ((getItemView db rv (some u) iid now).2).length = rv.length) := by
  intro db calls rv u i
  constructor
  · intro h
    induction calls generalizing rv with
    | nil => exact h
    | cons cObj cs ih =>
      exact ih _ (rvCount_getItemView_le db rv cObj.1 cObj.2.1 cObj.2.2 u i h)
  · intro item iid now hfind hact hne
    unfold getItemView
    rw [hfind]
    dsimp only
    have hAct2 : (!item.isActive) = false := by simp [hact]
    rw [hAct2]
    simp only [Bool.false_eq_true, if_false]
    rw [hne]
    simp [length_updateFirstRV]

/-- C7 witness: two successive views of item 3 by user 4 starting from an
empty table leave at most one row, and a repeat view against a table that
already holds the row only updates that row. -/
theorem recentlyViewed_upsert_witness :
    rvCount (applyViews [sampleItemActive] [(some 4, 3, 10), (some 4, 3, 20)] []) 4 3 ≤ 1 ∧
    (getItemView [sampleItemActive] [⟨4, 3, 0⟩] (some 4) 3 99).2
      = updateFirstRV 4 3 99 [⟨4, 3, 0⟩] := by
  obtain ⟨h1, _⟩ :=
    recentlyViewed_upsert [sampleItemActive] [(some 4, 3, 10), (some 4, 3, 20)] [] 4 3
  obtain ⟨_, h2⟩ := recentlyViewed_upsert [sampleItemActive] [] [⟨4, 3, 0⟩] 4 3
  exact ⟨h1 (by decide), (h2 sampleItemActive 3 99 (by decide) (by decide) (by decide)).1⟩

/-! ## C8: fetching a conversation marks it read, idempotently -/

theorem unreadCount_markConversationRead (msgs : List Chat) (s r : Nat) :
    unreadCount (markConversationRead msgs s r) s r = 0 := by
  induction msgs with
  | nil => rfl
  | cons m ms ih =>
    simp only [markConversationRead, unreadCount, List.map_cons, List.filter_cons] at ih ⊢
    by_cases h : unreadFrom s r m = true
    · rw [if_pos h]
      have hRead : unreadFrom s r { m with isRead := true } = false := by
        simp [unreadFrom]
      rw [hRead]
      simpa using ih
    · rw [if_neg h]
      have hFalse : unreadFrom s r m = false := by
        cases hc : unreadFrom s r m
        · rfl
        · exact absurd hc h
      rw [hFalse]
      simpa using ih

theorem markConversationRead_idem (msgs : List Chat) (s r : Nat) :
    markConversationRead (markConversationRead msgs s r) s r
      = markConversationRead msgs s r := by
  induction msgs with
  | nil => rfl
  | cons m ms ih =>
    simp only [markConversationRead, List.map_cons] at ih ⊢
    rw [ih]
    by_cases h : unreadFrom s r m = true
    · rw [if_pos h]
      have hRead : unreadFrom s r { m with isRead := true } = false := by
        simp [unreadFrom]
      rw [hRead]
      simp
    · rw [if_neg h]
      have hFalse : unreadFrom s r m = false := by
        cases hc : unreadFrom s r m
        · rfl
        · exact absurd hc h
      rw [hFalse]
      simp

/-- C8: when the counterpart exists, fetching the conversation leaves no
unread message from the counterpart to the current user (the unread count
used by `get_conversations` becomes 0), and fetching it again changes no
message row, so the count stays 0. -/
theorem getConversation_marks_read :
    ∀ (users : List User) (msgs : List Chat) (cur other : Nat) (p pp : Int),
    (User.queryGet users other).isSome = true →
    unreadCount (getConversation users msgs cur other p pp).msgs other cur = 0 ∧
    (getConversation users (getConversation users msgs cur other p pp).msgs
        cur other p pp).msgs
      = (getConversation users msgs cur other p pp).msgs := by
  intro users msgs cur other p pp hsome
  obtain ⟨u, hu⟩ := Option.isSome_iff_exists.mp hsome
  have hMsgs : ∀ ms : List Chat,
      (getConversation users ms cur other p pp).msgs
        = markConversationRead ms other cur := by
    intro ms
    simp [getConversation, hu]
  rw [hMsgs, hMsgs]
  exact ⟨unreadCount_markConversationRead msgs other cur,
    markConversationRead_idem msgs other cur⟩

/-- C8 witness: user 9 fetches the conversation with user 1, which holds one
unread message from user 1; afterwards the unread count is 0 and a repeated
fetch changes nothing. -/
theorem getConversation_marks_read_witness :
    unreadCount (getConversation [sampleUserA] [⟨1, 1, 9, "x", 0, false⟩] 9 1 1 50).msgs 1 9 = 0 ∧
    (getConversation [sampleUserA]
        (getConversation [sampleUserA] [⟨1, 1, 9, "x", 0, false⟩] 9 1 1 50).msgs 9 1 1 50).msgs
      = (getConversation [sampleUserA] [⟨1, 1, 9, "x", 0, false⟩] 9 1 1 50).msgs :=
  getConversation_marks_read [sampleUserA] [⟨1, 1, 9, "x", 0, false⟩] 9 1 1 50 (by decide)

/-! ## C9: account-enumeration-safe responses -/

/-- C9: the responses of `api_forgot_password` and `api_resend_verification`
depend only on the submitted email, not on whether an account with that email
exists: two runs differing only in account existence produce identical status
codes and messages. -/
theorem enumeration_safe_responses :
    ∀ (email : String) (existsA existsB : Bool),
    apiForgotPassword email existsA = apiForgotPassword email existsB ∧
    apiResendVerification email existsA = apiResendVerification email existsB := by
  intro email a b
  exact ⟨rfl, rfl⟩

/-! ## C10: asymmetric 404 conditions of the favorite operations -/

/-- C10: `add_favorite` answers 404 exactly when the item row is absent or
inactive, while `remove_favorite` answers 404 exactly when the row is absent;
in particular removing a favorite pointing at an existing inactive item
answers 200. -/
theorem favorite_404_asymmetry :
    ∀ (db : List Item) (favs : List (Nat × Nat)) (u iid : Nat),
    ((addFavorite db favs u iid).1 = 404 ↔
      Item.queryGet db iid = none ∨
        ∃ item : Item, Item.queryGet db iid = some item ∧ item.isActive = false) ∧
    ((removeFavorite db favs u iid).1 = 404 ↔ Item.queryGet db iid = none) ∧
    (∀ item : Item, Item.queryGet db iid = some item → item.isActive = false →
      (removeFavorite db favs u iid).1 = 200) := by
  intro db favs u iid
  cases hq : Item.queryGet db iid with
  | none =>
    refine ⟨?_, ?_, ?_⟩
    · simp [addFavorite, hq]
    · simp [removeFavorite, hq]
    · intro item hfind
      simp at hfind
  | some item =>
    refine ⟨?_, ?_, ?_⟩
    · cases hact : item.isActive
      · simp [addFavorite, hq, hact]
      · constructor
        · intro h4
          by_cases hm : (u, item.id) ∈ favs <;> simp [addFavorite, hq, hact, hm] at h4
        · intro hOr
          rcases hOr with hNone | ⟨item2, hfind2, hact2⟩
          · simp at hNone
          · injection hfind2 with hEq
            rw [hEq] at hact
            rw [hact] at hact2
            simp at hact2
    · constructor
      · intro h4
        by_cases hm : (u, item.id) ∈ favs <;> simp [removeFavorite, hq, hm] at h4
      · intro hNone
        simp at hNone
    · intro item2 hfind2 hact2
      by_cases hm : (u, item.id) ∈ favs <;> simp [removeFavorite, hq, hm]

/-- C10 witness: removing a favorite pointing at the inactive item 2
answers 200. -/
theorem favorite_404_asymmetry_witness :
    (removeFavorite [sampleItemInactive] [] 4 2).1 = 200 :=
  (favorite_404_asymmetry [sampleItemInactive] [] 4 2).2.2 sampleItemInactive
    (by decide) (by decide)

end MuleMart
